import Mathlib

/-!
Formal model of the ttenv multi-target tracking environments
(`ttenv/target_tracking.py`, `ttenv/target_imtracking.py`).

Conventions of the embedding:
* Python floats are modelled as rationals (`ℚ`).
* External collaborators that live outside the core (the occupancy-map
  service, the Kalman-filter library, the motion models, numpy linear
  algebra and transcendental functions) are modelled as parameters:
  e.g. `rlog : ℚ → ℚ` stands for `np.log`, `is_blocked` for
  `MAP.is_blocked`, and the determinant of a belief covariance is taken
  as an input value (the list `detcov`).
* Randomness (`np.random.*`) is modelled by explicit streams of draws
  passed to the sampling functions.
* Unbounded `while` loops are modelled with explicit fuel returning
  `Option`; theorems speak about runs that return `some`.
-/

namespace Ttenv

/-- Arithmetic mean of a list of rationals, `np.mean` (with the Lean/ℚ
convention `0 / 0 = 0` for the empty list). -/
def mean (xs : List ℚ) : ℚ := xs.sum / xs.length

/-- Embedding of `reward_fun_1` (target_tracking.py lines 729-740).
`detcov` is the list `[LA.det(b_target.cov) for b_target in belief_targets]`
(the determinant computation itself is numpy, external to the core);
`rlog` models `np.log`. -/
def reward_fun_1 (rlog : ℚ → ℚ) (detcov : List ℚ) (is_col : Bool)
    (is_training : Bool) (c_mean c_penalty : ℚ) : ℚ × Bool × Option ℚ :=
  let r_detcov_mean := - mean (detcov.map rlog)
  let reward := c_mean * r_detcov_mean
  let reward := if is_col then min 0 reward - c_penalty * 1 else reward
  let mean_nlogdetcov : Option ℚ :=
    if is_training then none else some (- mean (detcov.map rlog))
  (reward, false, mean_nlogdetcov)

/-- Embedding of `reward_fun` (target_tracking.py lines 717-727).
The `obstacles_pt` argument is accepted and ignored, as in the source. -/
def reward_fun (rlog : ℚ → ℚ) (detcov : List ℚ)
    (obstacles_pt : Option (ℚ × ℚ)) (is_training : Bool) (c_mean : ℚ) :
    ℚ × Bool × Option ℚ :=
  let r_detcov_mean := - mean (detcov.map rlog)
  let reward := c_mean * r_detcov_mean
  let mean_nlogdetcov : Option ℚ :=
    if is_training then none else some (- mean (detcov.map rlog))
  (reward, false, mean_nlogdetcov)

/-- Embedding of `reward_fun_0` (target_tracking.py lines 687-715).
`rsqrt` models the square root inside `np.std`; `margin2wall` is
the metadata margin2wall constant; `observed` booleans are averaged as 0/1 floats
as numpy does. -/
def reward_fun_0 (rlog rsqrt : ℚ → ℚ) (margin2wall : ℚ) (detcov : List ℚ)
    (obstacles_pt : Option (ℚ × ℚ)) (observed : List Bool)
    (is_training : Bool) (c_mean c_std c_observed c_penalty : ℚ) :
    ℚ × Bool × Option ℚ :=
  let penalty : ℚ :=
    match obstacles_pt with
    | none => 0
    | some o => margin2wall ^ 2 * 1 / max (margin2wall ^ 2) (o.1 ^ 2)
  let logs := detcov.map rlog
  let r_detcov_mean := - mean logs
  let r_detcov_std := - rsqrt (mean (logs.map fun x => (x - mean logs) ^ 2))
  let obs01 : List ℚ := observed.map fun b => if b then 1 else 0
  let r_observed := mean obs01
  let base := - c_penalty * penalty + c_mean * r_detcov_mean +
      c_std * r_detcov_std
  let reward := if obs01.sum = 0 then base
    else max 0 base + c_observed * r_observed
  let mean_nlogdetcov : Option ℚ :=
    if is_training then none else some (- mean (detcov.map rlog))
  (reward, false, mean_nlogdetcov)

/-- Embedding of `TargetTrackingEnv0.observation` (target_tracking.py lines
266-277).  The relative polar coordinates `(r, alpha)` are produced by the
external geometry utility `util.relative_distance_polar` and are taken as
inputs; `is_blocked` is the result of the external map query
`MAP.is_blocked(agent.state, target.state)`; `pi` stands for `np.pi` and
`noise` for the sampled multivariate-normal measurement noise. -/
def observation (sensor_r fov pi : ℚ) (r alpha : ℚ) (is_blocked : Bool)
    (noise : ℚ × ℚ) : Bool × Option (ℚ × ℚ) :=
  let observed := decide (r ≤ sensor_r) &&
    decide (|alpha| ≤ fov / 2 / 180 * pi) && !is_blocked
  let z : Option (ℚ × ℚ) :=
    if observed then some (r + noise.1, alpha + noise.2) else none
  (observed, z)

/-- C4: `observation(target)` returns `detected = true` iff the relative
range is at most the sensor max range, the absolute relative bearing is at
most half the field of view in radians, and the line of sight is not
blocked; and whenever `detected = false` the measurement is `None`. -/
theorem observation_detected_iff (sensor_r fov pi r alpha : ℚ)
    (is_blocked : Bool) (noise : ℚ × ℚ) :
    ((observation sensor_r fov pi r alpha is_blocked noise).1 = true ↔
      (r ≤ sensor_r ∧ |alpha| ≤ fov / 2 / 180 * pi ∧ is_blocked = false)) ∧
    ((observation sensor_r fov pi r alpha is_blocked noise).1 = false →
      (observation sensor_r fov pi r alpha is_blocked noise).2 = none) := by
  constructor
  · simp [observation, and_assoc]
  · intro h
    simp only [observation] at h ⊢
    simp [h]

/-- C3: for `reward_fun_1`, without collision the reward is the weight
`c_mean` times the negated mean of the logs of the belief covariance
determinants; with collision it is `min 0` of that value minus `c_penalty`;
and when every determinant is `1.0` (so `log 1 = 0`) and there is no
collision, the reward is exactly `0`. -/
theorem reward_fun_1_reward_spec (rlog : ℚ → ℚ) (detcov : List ℚ)
    (is_training : Bool) (c_mean c_penalty : ℚ) :
    (reward_fun_1 rlog detcov false is_training c_mean c_penalty).1 =
      c_mean * (- mean (detcov.map rlog)) ∧
    (reward_fun_1 rlog detcov true is_training c_mean c_penalty).1 =
      min 0 (c_mean * (- mean (detcov.map rlog))) - c_penalty ∧
    (rlog 1 = 0 → ∀ k : ℕ,
      (reward_fun_1 rlog (List.replicate k 1) false is_training
        c_mean c_penalty).1 = 0) := by
  refine ⟨by simp [reward_fun_1], by simp [reward_fun_1], ?_⟩
  intro h1 k
  simp [reward_fun_1, mean, List.map_replicate, h1, List.sum_replicate]

/-- Closed instance of `reward_fun_1_reward_spec`: two targets whose
covariance determinants are both `1.0`, no collision, default weights. -/
theorem reward_fun_1_reward_spec_witness :
    ((fun _ : ℚ => (0 : ℚ)) 1 = 0) ∧
    (reward_fun_1 (fun _ => 0) (List.replicate 2 1) false true
      (1/10) 1).1 = 0 :=
  ⟨rfl, (reward_fun_1_reward_spec (fun _ => 0) (List.replicate 2 1) true
    (1/10) 1).2.2 rfl 2⟩

/-- C9: all three reward functions return `done = False` unconditionally,
and return the auxiliary metric as `None` exactly when `is_training` is
true, and as the negated mean of the log-determinants when it is false. -/
theorem reward_functions_done_and_aux (rlog rsqrt : ℚ → ℚ)
    (margin2wall : ℚ) (detcov : List ℚ) (obstacles_pt : Option (ℚ × ℚ))
    (observed : List Bool) (is_training : Bool)
    (c_mean c_std c_observed c_penalty : ℚ) (is_col : Bool) :
    ((reward_fun_0 rlog rsqrt margin2wall detcov obstacles_pt observed
        is_training c_mean c_std c_observed c_penalty).2.1 = false ∧
     (reward_fun_0 rlog rsqrt margin2wall detcov obstacles_pt observed
        is_training c_mean c_std c_observed c_penalty).2.2 =
      (if is_training then none else some (- mean (detcov.map rlog)))) ∧
    ((reward_fun rlog detcov obstacles_pt is_training c_mean).2.1 = false ∧
     (reward_fun rlog detcov obstacles_pt is_training c_mean).2.2 =
      (if is_training then none else some (- mean (detcov.map rlog)))) ∧
    ((reward_fun_1 rlog detcov is_col is_training c_mean c_penalty).2.1
        = false ∧
     (reward_fun_1 rlog detcov is_col is_training c_mean c_penalty).2.2 =
      (if is_training then none else some (- mean (detcov.map rlog)))) := by
  refine ⟨⟨?_, ?_⟩, ⟨?_, ?_⟩, ⟨?_, ?_⟩⟩ <;>
    simp [reward_fun_0, reward_fun, reward_fun_1]

/-- Planar pose (x, y, heading), the agent state convention of the code. -/
structure Pose2 where
  x : ℚ
  y : ℚ
  th : ℚ
deriving DecidableEq

/-- Mutable state owned by the `TargetTrackingEnv1` orchestrator that the
step/reset cycle touches: agent pose, true target states (`T` is the
external motion-model state type), belief filters (`B` is the external
Kalman-filter state type) and the per-target discovery flags (Python ints,
`0`/`1`). -/
structure EnvState (B T : Type) where
  agent : Pose2
  targets : List T
  belief_targets : List B
  has_discovered : List ℕ
deriving DecidableEq

/-- Embedding of `TargetTrackingEnv1.observe_and_update_belief`
(target_tracking.py lines 432-441).  `updateB` is the external
`KFbelief.update` (measurement fusion); `obs i` is the outcome of
`self.observation(self.targets[i])` at loop index `i` (detected flag and
measurement).  Returns the new belief list, the new discovery flags and
the `observed` list, iterating indices in ascending order as the Python
`for i in range(self.num_targets)` does. -/
def observe_and_update_belief {B : Type} (updateB : (ℚ × ℚ) → Pose2 → B → B)
    (obs : ℕ → Bool × (ℚ × ℚ)) (agent : Pose2) :
    List B → List ℕ → ℕ → List B × List ℕ × List Bool
  | b :: bs, h :: hs, i =>
    let o := obs i
    let b' := if o.1 then updateB o.2 agent b else b
    let h' := if o.1 then (if h = 0 then 1 else h) else h
    let rest := observe_and_update_belief updateB obs agent bs hs (i + 1)
    (b' :: rest.1, h' :: rest.2.1, o.1 :: rest.2.2)
  | bs, hs, _ => (bs, hs, [])

/-- Embedding of the target-motion loop of `TargetTrackingEnv1.step`
(target_tracking.py lines 392-394): `self.targets[i].update(...)` runs only
when `self.has_discovered[i]` is truthy (a nonzero int).  `updateT i` is the
external motion model update for target `i` (index-dependent to account for
its process noise draw). -/
def move_targets {T : Type} (updateT : ℕ → T → T) :
    List T → List ℕ → ℕ → List T
  | t :: ts, h :: hs, i =>
    (if h ≠ 0 then updateT i t else t) :: move_targets updateT ts hs (i + 1)
  | ts, _, _ => ts

/-- Embedding of the dangling `self.belief_targets[i].predict()` call of
`TargetTrackingEnv1.step` (line 403) and `TargetTrackingEnv1.reset`
(line 378): the loop variable `i` retains its final value
`num_targets - 1` from the preceding `for i in range(self.num_targets)`
loop, so only that one belief is predicted. -/
def predict_last {B : Type} (predictB : B → B) (n : ℕ) (bs : List B) :
    List B :=
  match bs.get? (n - 1) with
  | some b => bs.set (n - 1) (predictB b)
  | none => bs

/-- Embedding of `TargetTrackingEnv1.step` (target_tracking.py lines
385-408) restricted to the state it mutates.  External collaborators are
parameters: `agent_next` is the result of the external
`self.agent.update(action_vw, ...)`, `obs` the per-target observation
outcomes, `predictB`/`updateB` the external Kalman predict/update, and
`updateT` the target motion model.  The reward is computed between the
belief update and the final predict and does not mutate any of this state,
so it is omitted here (see `reward_fun_1` for its value).  Returns the new
state and the `observed` list handed to `state_func`. -/
def env1_step {B T : Type} (predictB : B → B)
    (updateB : (ℚ × ℚ) → Pose2 → B → B) (updateT : ℕ → T → T)
    (agent_next : Pose2) (obs : ℕ → Bool × (ℚ × ℚ)) (s : EnvState B T) :
    EnvState B T × List Bool :=
  let agent := agent_next
  let targets := move_targets updateT s.targets s.has_discovered 0
  let r := observe_and_update_belief updateB obs agent s.belief_targets
    s.has_discovered 0
  let beliefs := predict_last predictB s.belief_targets.length r.1
  (⟨agent, targets, beliefs, r.2.1⟩, r.2.2)

/-- Embedding of `TargetTrackingEnv1.reset` (target_tracking.py lines
358-383) restricted to the belief/target/discovery state.  `initB i` is the
belief for target `i` right after `KFbelief.reset(init_state, init_cov)`
from the sampled belief pose (no predict there); `initT i` the reset true
target state.  After initialization one observe+conditional-update cycle
runs, then the dangling `self.belief_targets[i].predict()` (line 378, `i`
stale from the init loop) predicts only the last belief. -/
def env1_reset {B T : Type} (predictB : B → B)
    (updateB : (ℚ × ℚ) → Pose2 → B → B) (initB : ℕ → B) (initT : ℕ → T)
    (agent0 : Pose2) (obs : ℕ → Bool × (ℚ × ℚ)) (n : ℕ) :
    EnvState B T × List Bool :=
  let beliefs0 := (List.range n).map initB
  let targets0 := (List.range n).map initT
  let hd0 : List ℕ := List.replicate n 0
  let r := observe_and_update_belief updateB obs agent0 beliefs0 hd0 0
  let beliefs := predict_last predictB n r.1
  (⟨agent0, targets0, beliefs, r.2.1⟩, r.2.2)

/-- Embedding of the belief lifecycle inside `TargetTrackingEnv6.reset`
(target_imtracking.py lines 82-103): each belief is reset from the sampled
pose and the state vector is composed directly; no observe/update cycle and
no predict call happens there. -/
def env6_reset_beliefs {B : Type} (initB : ℕ → B) (n : ℕ) : List B :=
  (List.range n).map initB

/-- C1 (defect evidence): running `TargetTrackingEnv1.step` with two
targets, instantiating the belief type with a predict-call counter
(`predictB = Nat.succ`, `updateB` leaves the counter unchanged), both
targets detected.  The claim requires every belief filter to receive
exactly one predict call, i.e. counters `[1, 1]`; the code leaves the
first belief unpredicted: counters come out `[0, 1]` because the final
`predict` uses the stale loop index. -/
theorem env1_step_predicts_only_last_belief :
    ((env1_step Nat.succ (fun _ _ b => b) (fun _ t => t) ⟨0, 0, 0⟩
      (fun _ => (true, (0, 0)))
      ⟨⟨0, 0, 0⟩, [(), ()], [0, 0], [1, 1]⟩).1.belief_targets = [0, 1]) ∧
    [(0 : ℕ), 1] ≠ [1, 1] := ⟨rfl, by decide⟩

/-- C2 (defect evidence): `TargetTrackingEnv1.reset` with two targets and a
predict-counting belief leaves the first belief with zero predict calls
(claim requires one per target); and `TargetTrackingEnv6.reset` performs no
observe/update/predict at all, returning the beliefs exactly as
initialized. -/
theorem env1_reset_predicts_only_last_belief :
    ((env1_reset Nat.succ (fun _ _ b => b) (fun _ => (0 : ℕ))
      (fun _ => ()) ⟨0, 0, 0⟩ (fun _ => (true, (0, 0)))
      2).1.belief_targets = [0, 1]) ∧
    env6_reset_beliefs (fun _ => (5 : ℕ)) 1 = [5] := ⟨rfl, rfl⟩

theorem move_targets_get?_of_zero {T : Type} (u : ℕ → T → T) :
    ∀ (ts : List T) (hs : List ℕ) (i j : ℕ), hs.get? j = some 0 →
      (move_targets u ts hs i).get? j = ts.get? j := by
  intro ts
  induction ts with
  | nil => intro hs i j _; simp [move_targets]
  | cons t ts ih =>
    intro hs i j hz
    cases hs with
    | nil => simp at hz
    | cons h hs =>
      cases j with
      | zero =>
        simp at hz
        simp [move_targets, hz]
      | succ j =>
        simp at hz
        simpa [move_targets] using ih hs (i + 1) j (by simpa using hz)

theorem observe_and_update_hasD_get? {B : Type}
    (updateB : (ℚ × ℚ) → Pose2 → B → B) (obs : ℕ → Bool × (ℚ × ℚ))
    (agent : Pose2) :
    ∀ (bs : List B) (hs : List ℕ) (i j d : ℕ), j < bs.length →
      hs.get? j = some d →
      (observe_and_update_belief updateB obs agent bs hs i).2.1.get? j =
        some (if (obs (i + j)).1 then (if d = 0 then 1 else d) else d) := by
  intro bs
  induction bs with
  | nil => intro hs i j d hj _; simp at hj
  | cons b bs ih =>
    intro hs i j d hj hd
    cases hs with
    | nil => simp at hd
    | cons h hs =>
      cases j with
      | zero =>
        simp at hd
        simp [observe_and_update_belief, hd]
      | succ j =>
        simp at hd
        have := ih hs (i + 1) j d (by simpa using hj) (by simpa using hd)
        simpa [observe_and_update_belief, Nat.add_assoc, Nat.add_comm 1 j]
          using this

/-- C10 (amended): in the variants that use `TargetTrackingEnv1.step`
(`TargetTrackingEnv1`, `2`, `5`, `7`, `8`, `9` — but not
`TargetTrackingEnv6`, whose overriding `step` moves targets
unconditionally), a target whose `has_discovered` flag is `0` keeps its
true kinematic state unchanged (the conclusion holds for every possible
motion model `updateT`, i.e. the update is not invoked); and the new
`has_discovered[i]` is `1` exactly when the target was already discovered
or is detected this step — so the flag is set on first detection, and
once `1` it is never cleared by `step`. -/
theorem env1_step_discovery_gating {B T : Type} (predictB : B → B)
    (updateB : (ℚ × ℚ) → Pose2 → B → B) (updateT : ℕ → T → T)
    (agent_next : Pose2) (obs : ℕ → Bool × (ℚ × ℚ)) (s : EnvState B T)
    (i d : ℕ) (hd : s.has_discovered.get? i = some d) :
    (d = 0 →
      (env1_step predictB updateB updateT agent_next obs
        s).1.targets.get? i = s.targets.get? i) ∧
    (i < s.belief_targets.length → d ≤ 1 →
      ((env1_step predictB updateB updateT agent_next obs
          s).1.has_discovered.get? i = some 1 ↔
        (d = 1 ∨ (obs i).1 = true))) := by
  constructor
  · intro h0
    subst h0
    simpa [env1_step] using
      move_targets_get?_of_zero updateT s.targets s.has_discovered 0 i hd
  · intro hlen hd1
    have hkey := observe_and_update_hasD_get? updateB obs agent_next
      s.belief_targets s.has_discovered 0 i d hlen hd
    simp only [env1_step, Nat.zero_add] at hkey ⊢
    rw [hkey]
    interval_cases d
    · rcases h : (obs i).1 <;> simp [h]
    · rcases h : (obs i).1 <;> simp [h]

/-- Embedding of the target-motion loop of `TargetTrackingEnv6.step`
(target_imtracking.py lines 110-111): `self.targets[i].update(...)` runs
for every index, with no `has_discovered` guard. -/
def env6_move_targets {T : Type} (updateT : ℕ → T → T) :
    List T → ℕ → List T
  | [], _ => []
  | t :: ts, i => updateT i t :: env6_move_targets updateT ts (i + 1)

/-- C10 counterexample: `TargetTrackingEnv6` is a descendant of
`TargetTrackingEnv1`, yet its overridden `step` advances a target whose
`has_discovered` flag is `0`: with one undiscovered target in state `0`
and a motion model that increments the state, the target ends in state
`1`, not `0`. -/
theorem env6_step_moves_undiscovered_target :
    env6_move_targets (fun _ t => t + 1) [(0 : ℕ)] 0 = [1] ∧
    [(1 : ℕ)] ≠ [0] := ⟨rfl, by decide⟩

/-- Closed instance of `env1_step_discovery_gating`: one undiscovered
target, detected this step. -/
theorem env1_step_discovery_gating_witness :
    (([0] : List ℕ).get? 0 = some 0) ∧
    ((0 = 0 →
      (env1_step Nat.succ (fun _ _ b => b) (fun _ t => t) ⟨0, 0, 0⟩
        (fun _ => (true, (0, 0)))
        ⟨⟨0, 0, 0⟩, [()], [(0 : ℕ)], [0]⟩).1.targets.get? 0 =
        (⟨⟨0, 0, 0⟩, [()], [(0 : ℕ)], [0]⟩ :
          EnvState ℕ Unit).targets.get? 0) ∧
    (0 < (⟨⟨0, 0, 0⟩, [()], [(0 : ℕ)], [0]⟩ :
        EnvState ℕ Unit).belief_targets.length → 0 ≤ 1 →
      ((env1_step Nat.succ (fun _ _ b => b) (fun _ t => t) ⟨0, 0, 0⟩
          (fun _ => (true, (0, 0)))
          ⟨⟨0, 0, 0⟩, [()], [(0 : ℕ)], [0]⟩).1.has_discovered.get? 0 =
          some 1 ↔
        (0 = 1 ∨ ((fun _ : ℕ => (true, ((0 : ℚ), (0 : ℚ)))) 0).1 = true)))) :=
  ⟨rfl, env1_step_discovery_gating Nat.succ (fun _ _ b => b) (fun _ t => t)
    ⟨0, 0, 0⟩ (fun _ => (true, (0, 0)))
    ⟨⟨0, 0, 0⟩, [()], [(0 : ℕ)], [0]⟩ 0 0 rfl⟩

/-- Python list repetition `blk * n` (used to build the observation-space
bound vectors, e.g. `[0.0, -np.pi, -50.0, 0.0] * num_targets`). -/
def pyListMul (blk : List ℚ) : ℕ → List ℚ
  | 0 => []
  | n + 1 => blk ++ pyListMul blk n

/-- Concatenation of per-target feature blocks for loop indices
`i0, i0+1, ..., i0+m-1` in ascending order, as the Python
`for i in range(num_targets): self.state.extend([...])` loops do. -/
def target_blocks (block : ℕ → List ℚ) : ℕ → ℕ → List ℚ
  | _, 0 => []
  | i, m + 1 => block i ++ target_blocks block (i + 1) m

/-- Embedding of the shared pattern
`if obstacles_pt is None: obstacles_pt = (self.sensor_r, np.pi)`
(target_tracking.py lines 304-305, 413-414, 579-580, 671-672,
target_imtracking.py lines 122-123, 167-168, 261-262). -/
def resolve_obstacles (sensor_r pi : ℚ) : Option (ℚ × ℚ) → ℚ × ℚ
  | none => (sensor_r, pi)
  | some p => p

/-- State vector composed by `TargetTrackingEnv0.reset` (lines 248-263):
per target `[r, alpha, logdetcov, 0.0]`, then `[sensor_r, np.pi]`.  The
per-target features are computed by the external geometry/linear-algebra
utilities and enter as functions of the target index. -/
def env0_reset_state (sensor_r pi : ℚ) (r alpha logdet : ℕ → ℚ) (n : ℕ) :
    List ℚ :=
  target_blocks (fun i => [r i, alpha i, logdet i, 0]) 0 n ++ [sensor_r, pi]

/-- State vector composed at the end of `TargetTrackingEnv0.step`
(lines 303-313): per target `[r_b, alpha_b, logdet, float(observed[i])]`,
then the resolved obstacle pair. -/
def env0_step_state (sensor_r pi : ℚ) (obstacles_pt : Option (ℚ × ℚ))
    (r_b alpha_b logdet : ℕ → ℚ) (observed : ℕ → Bool) (n : ℕ) : List ℚ :=
  let o := resolve_obstacles sensor_r pi obstacles_pt
  target_blocks
    (fun i => [r_b i, alpha_b i, logdet i, if observed i then 1 else 0])
    0 n ++ [o.1, o.2]

/-- Embedding of `TargetTrackingEnv1.state_func` (lines 410-430): per
target `[r_b, alpha_b, r_dot_b, alpha_dot_b, logdet, float(observed[i])]`,
then the resolved obstacle pair.  Used by both `reset` and `step` of
`TargetTrackingEnv1` (and by `TargetTrackingEnv2`, `TargetTrackingEnv5`,
`TargetTrackingEnv6.step` shape, `TargetTrackingEnv8`). -/
def env1_state_func (sensor_r pi : ℚ) (obstacles_pt : Option (ℚ × ℚ))
    (r_b alpha_b r_dot_b alpha_dot_b logdet : ℕ → ℚ) (observed : ℕ → Bool)
    (n : ℕ) : List ℚ :=
  let o := resolve_obstacles sensor_r pi obstacles_pt
  target_blocks
    (fun i => [r_b i, alpha_b i, r_dot_b i, alpha_dot_b i, logdet i,
      if observed i then 1 else 0]) 0 n ++ [o.1, o.2]

/-- State vector composed by `TargetTrackingEnv2.reset` (lines 500-521)
and `TargetTrackingEnv4.reset` (lines 635-653): per target
`[r, alpha, 0.0, 0.0, logdetcov, 0.0]`, then `[sensor_r, np.pi]`. -/
def env2_reset_state (sensor_r pi : ℚ) (r alpha logdet : ℕ → ℚ) (n : ℕ) :
    List ℚ :=
  target_blocks (fun i => [r i, alpha i, 0, 0, logdet i, 0]) 0 n ++
    [sensor_r, pi]

/-- State vector composed at the end of `TargetTrackingEnv3.step`
(lines 561-589): per target `[r_b, alpha_b, logdet, float(observed[i])]`,
then the resolved obstacle pair (same block shape as
`TargetTrackingEnv0`). -/
def env3_step_state (sensor_r pi : ℚ) (obstacles_pt : Option (ℚ × ℚ))
    (r_b alpha_b logdet : ℕ → ℚ) (observed : ℕ → Bool) (n : ℕ) : List ℚ :=
  env0_step_state sensor_r pi obstacles_pt r_b alpha_b logdet observed n

/-- State vector composed at the end of `TargetTrackingEnv4.step`
(lines 655-685): six features per target then the resolved obstacle pair
(same block shape as `TargetTrackingEnv1.state_func`). -/
def env4_step_state (sensor_r pi : ℚ) (obstacles_pt : Option (ℚ × ℚ))
    (r_b alpha_b r_dot_b alpha_dot_b logdet : ℕ → ℚ) (observed : ℕ → Bool)
    (n : ℕ) : List ℚ :=
  env1_state_func sensor_r pi obstacles_pt r_b alpha_b r_dot_b alpha_dot_b
    logdet observed n

/-- Embedding of `TargetTrackingEnv7.state_func` (target_imtracking.py
lines 164-190) and `TargetTrackingEnv9.state_func` per-target layout: the
six `TargetTrackingEnv1` features plus `float(is_belief_blocked)`. -/
def env7_state_func (sensor_r pi : ℚ) (obstacles_pt : Option (ℚ × ℚ))
    (r_b alpha_b r_dot_b alpha_dot_b logdet : ℕ → ℚ)
    (observed blocked_b : ℕ → Bool) (n : ℕ) : List ℚ :=
  let o := resolve_obstacles sensor_r pi obstacles_pt
  target_blocks
    (fun i => [r_b i, alpha_b i, r_dot_b i, alpha_dot_b i, logdet i,
      (if observed i then 1 else 0), if blocked_b i then 1 else 0]) 0 n ++
    [o.1, o.2]

/-- Embedding of `TargetTrackingEnv9.state_func` (target_imtracking.py
lines 258-287): the `TargetTrackingEnv7` per-target layout plus a third
trailing entry, the front-sector obstacle range (sentinel `sensor_r` when
missing). -/
def env9_state_func (sensor_r pi : ℚ) (obstacles_pt : Option (ℚ × ℚ))
    (front_obstacle_r : Option ℚ)
    (r_b alpha_b r_dot_b alpha_dot_b logdet : ℕ → ℚ)
    (observed blocked_b : ℕ → Bool) (n : ℕ) : List ℚ :=
  let o := resolve_obstacles sensor_r pi obstacles_pt
  let fr := match front_obstacle_r with
    | none => sensor_r
    | some v => v
  target_blocks
    (fun i => [r_b i, alpha_b i, r_dot_b i, alpha_dot_b i, logdet i,
      (if observed i then 1 else 0), if blocked_b i then 1 else 0]) 0 n ++
    [o.1, o.2, fr]

/-- Flattening of an external `rows x cols` map crop into a list, as numpy
`flatten` does (row-major).  Modelled from the spec: the map collaborator method
`local_map(im_size, pose)` returns a fixed-size `im_size x im_size`
egocentric crop. -/
def flatten_grid (g : ℕ → ℕ → ℚ) (rows cols : ℕ) : List ℚ :=
  ((List.range rows).map fun r => (List.range cols).map (g r)).flatten

/-- Embedding of `TargetTrackingEnv5.map_state_func` (target_imtracking.py
lines 63-69): the egocentric crop normalized by `(v - 0.5) * 2` and
flattened. -/
def env5_map_state (g : ℕ → ℕ → ℚ) (im : ℕ) : List ℚ :=
  flatten_grid (fun r c => (g r c - 1/2) * 2) im im

/-- Image part of the vectors returned by `TargetTrackingEnv6.reset` and
`TargetTrackingEnv6.step` (lines 103, 138): raw crop flattened, then the
visit-frequency crop flattened and shifted by `-1.0`. -/
def env6_map_state (g gv : ℕ → ℕ → ℚ) (im : ℕ) : List ℚ :=
  flatten_grid g im im ++ flatten_grid (fun r c => gv r c - 1) im im

/-- Embedding of `TargetTrackingEnv7.map_state_func` (lines 192-205, also
`TargetTrackingEnv8.map_state_func`): five `im x im` layers (normalized
crop plus four shifted visit-frequency crops) stacked into a
`(5, im, im)` array, transposed and flattened, so entry
`(a, b, c)` of the transpose is layer `c` at cell `(b, a)`. -/
def env7_map_state (g v1 v2 v3 v4 : ℕ → ℕ → ℚ) (im : ℕ) : List ℚ :=
  let layer : ℕ → ℕ → ℕ → ℚ := fun c b a =>
    match c with
    | 0 => (g b a - 1/2) * 2
    | 1 => v1 b a - 1
    | 2 => v2 b a - 1
    | 3 => v3 b a - 1
    | _ => v4 b a - 1
  ((List.range im).map fun a =>
    (((List.range im).map fun b =>
      (List.range 5).map fun c => layer c b a)).flatten).flatten

/-- Observation-space lower bound of `TargetTrackingEnv0.__init__`
(lines 88-89); its length is the declared observation dimension. -/
def env0_state_limit_low (pi : ℚ) (n : ℕ) : List ℚ :=
  pyListMul [0, -pi, -50, 0] n ++ [0, -pi]

/-- Observation-space lower bound of `TargetTrackingEnv1.__init__`
(lines 330-331); `rel` is the maximum relative speed.  The same pattern is
declared by `TargetTrackingEnv2` (inherited) and `TargetTrackingEnv4`
(line 605). -/
def env1_state_limit_low (pi rel : ℚ) (n : ℕ) : List ℚ :=
  pyListMul [0, -pi, -rel, -10 * pi, -50, 0] n ++ [0, -pi]

/-- Observation-space lower bound of `TargetTrackingEnv5.__init__`
(target_imtracking.py lines 44-47): an `im*im` image block of `-1` bounds
prepended to the `TargetTrackingEnv1` feature bounds. -/
def env5_obs_low (pi rel : ℚ) (n im : ℕ) : List ℚ :=
  List.replicate (im * im) (-1) ++ env1_state_limit_low pi rel n

/-- Observation-space lower bound of `TargetTrackingEnv6.__init__`
(lines 77-80): a `2*im*im` image block. -/
def env6_obs_low (pi rel : ℚ) (n im : ℕ) : List ℚ :=
  List.replicate (2 * (im * im)) (-1) ++ env1_state_limit_low pi rel n

/-- Feature-bound vector rebuilt by `TargetTrackingEnv7.__init__`
(lines 148-154): per target the sliced six `TargetTrackingEnv1` bounds
plus one entry for the blocked flag, then the obstacle pair. -/
def env7_state_limit_low (pi rel : ℚ) (n : ℕ) : List ℚ :=
  pyListMul ([0, -pi, -rel, -10 * pi, -50, 0] ++ [0]) n ++ [0, -pi]

/-- Observation-space lower bound of `TargetTrackingEnv7.__init__`
(lines 155-158): a `5*im*im` image block before the rebuilt feature
bounds. -/
def env7_obs_low (pi rel : ℚ) (n im : ℕ) : List ℚ :=
  List.replicate (5 * (im * im)) (-1) ++ env7_state_limit_low pi rel n

/-- Observation-space lower bound of `TargetTrackingEnv8.__init__`
(lines 213-216): a `5*im*im` image block before the unmodified
`TargetTrackingEnv1` feature bounds. -/
def env8_obs_low (pi rel : ℚ) (n im : ℕ) : List ℚ :=
  List.replicate (5 * (im * im)) (-1) ++ env1_state_limit_low pi rel n

/-- Observation-space lower bound of `TargetTrackingEnv9.__init__`
(lines 250-256): the `TargetTrackingEnv7` feature bounds with one extra
trailing entry, behind a `5*im*im` image block. -/
def env9_obs_low (pi rel : ℚ) (n im : ℕ) : List ℚ :=
  List.replicate (5 * (im * im)) (-1) ++
    (env7_state_limit_low pi rel n ++ [0])

theorem pyListMul_length (blk : List ℚ) :
    ∀ n, (pyListMul blk n).length = n * blk.length := by
  intro n
  induction n with
  | zero => simp [pyListMul]
  | succ n ih => simp [pyListMul, ih, Nat.succ_mul, Nat.add_comm]

theorem target_blocks_length (block : ℕ → List ℚ) (L : ℕ)
    (h : ∀ i, (block i).length = L) :
    ∀ i0 m, (target_blocks block i0 m).length = m * L := by
  intro i0 m
  induction m generalizing i0 with
  | zero => simp [target_blocks]
  | succ m ih => simp [target_blocks, h, ih, Nat.succ_mul, Nat.add_comm]

theorem flatten_grid_length (g : ℕ → ℕ → ℚ) (rows cols : ℕ) :
    (flatten_grid g rows cols).length = rows * cols := by
  simp [flatten_grid, List.length_flatten, Function.comp_def,
    List.sum_replicate, smul_eq_mul]

theorem env7_map_state_length (g v1 v2 v3 v4 : ℕ → ℕ → ℚ) (im : ℕ) :
    (env7_map_state g v1 v2 v3 v4 im).length = 5 * (im * im) := by
  simp [env7_map_state, List.length_flatten, Function.comp_def,
    List.sum_replicate, smul_eq_mul]
  ring

/-- C7: for every environment variant, the state vectors composed by
`reset` and by `step` have one fixed length determined only by the
instance parameters (`num_targets`, `im_size`), and that length equals the
length of the declared observation-space bound vector of that variant. -/
theorem variant_state_lengths_match_obs_space (sensor_r pi rel : ℚ)
    (obstacles_pt : Option (ℚ × ℚ)) (front_r : Option ℚ)
    (f1 f2 f3 f4 f5 : ℕ → ℚ) (ob bb : ℕ → Bool)
    (g gv v1 v2 v3 v4 : ℕ → ℕ → ℚ) (n im : ℕ) :
    ((env0_reset_state sensor_r pi f1 f2 f3 n).length =
      (env0_state_limit_low pi n).length ∧
     (env0_step_state sensor_r pi obstacles_pt f1 f2 f3 ob n).length =
      (env0_state_limit_low pi n).length) ∧
    ((env1_state_func sensor_r pi obstacles_pt f1 f2 f3 f4 f5 ob n).length =
      (env1_state_limit_low pi rel n).length ∧
     (env2_reset_state sensor_r pi f1 f2 f3 n).length =
      (env1_state_limit_low pi rel n).length) ∧
    ((env3_step_state sensor_r pi obstacles_pt f1 f2 f3 ob n).length =
      (env0_state_limit_low pi n).length ∧
     (env4_step_state sensor_r pi obstacles_pt f1 f2 f3 f4 f5 ob n).length =
      (env1_state_limit_low pi rel n).length) ∧
    ((env5_map_state g im ++
        env1_state_func sensor_r pi obstacles_pt f1 f2 f3 f4 f5 ob
          n).length = (env5_obs_low pi rel n im).length) ∧
    ((env6_map_state g gv im ++
        env2_reset_state sensor_r pi f1 f2 f3 n).length =
      (env6_obs_low pi rel n im).length ∧
     (env6_map_state g gv im ++
        env1_state_func sensor_r pi obstacles_pt f1 f2 f3 f4 f5 ob
          n).length = (env6_obs_low pi rel n im).length) ∧
    ((env7_map_state g v1 v2 v3 v4 im ++
        env7_state_func sensor_r pi obstacles_pt f1 f2 f3 f4 f5 ob bb
          n).length = (env7_obs_low pi rel n im).length) ∧
    ((env7_map_state g v1 v2 v3 v4 im ++
        env1_state_func sensor_r pi obstacles_pt f1 f2 f3 f4 f5 ob
          n).length = (env8_obs_low pi rel n im).length) ∧
    ((env7_map_state g v1 v2 v3 v4 im ++
        env9_state_func sensor_r pi obstacles_pt front_r f1 f2 f3 f4 f5 ob
          bb n).length = (env9_obs_low pi rel n im).length) := by
  have h4 := target_blocks_length
    (fun i => [f1 i, f2 i, f3 i, if ob i then (1 : ℚ) else 0]) 4
    (fun _ => rfl) 0 n
  have h4r := target_blocks_length
    (fun i => [f1 i, f2 i, f3 i, (0 : ℚ)]) 4 (fun _ => rfl) 0 n
  have h6 := target_blocks_length
    (fun i => [f1 i, f2 i, f3 i, f4 i, f5 i,
      if ob i then (1 : ℚ) else 0]) 6 (fun _ => rfl) 0 n
  have h6r := target_blocks_length
    (fun i => [f1 i, f2 i, (0 : ℚ), 0, f3 i, 0]) 6 (fun _ => rfl) 0 n
  have h7 := target_blocks_length
    (fun i => [f1 i, f2 i, f3 i, f4 i, f5 i,
      (if ob i then (1 : ℚ) else 0),
      if bb i then (1 : ℚ) else 0]) 7 (fun _ => rfl) 0 n
  refine ⟨⟨?_, ?_⟩, ⟨?_, ?_⟩, ⟨?_, ?_⟩, ?_, ⟨?_, ?_⟩, ?_, ?_, ?_⟩ <;>
    simp [env0_reset_state, env0_step_state, env1_state_func,
      env2_reset_state, env3_step_state, env4_step_state, env7_state_func,
      env9_state_func, env0_state_limit_low, env1_state_limit_low,
      env5_obs_low, env6_obs_low, env7_obs_low, env8_obs_low, env9_obs_low,
      env7_state_limit_low, env5_map_state, env6_map_state,
      flatten_grid_length, env7_map_state_length, pyListMul_length,
      h4, h4r, h6, h6r, h7] <;> ring

/-- C8: whenever the closest-obstacle query returns `None`, the composed
state equals the one composed from the sentinel pair
`(sensor_r, np.pi)`, and its trailing obstacle block is exactly
`[sensor_r, np.pi]` — the missing obstacle is never propagated.  Stated
for `TargetTrackingEnv1.state_func` (lines 412-414) and the same pattern
in `TargetTrackingEnv0.step` (lines 303-305). -/
theorem no_obstacle_query_uses_sentinel (sensor_r pi : ℚ)
    (f1 f2 f3 f4 f5 : ℕ → ℚ) (ob : ℕ → Bool) (n : ℕ) :
    (env1_state_func sensor_r pi none f1 f2 f3 f4 f5 ob n =
      env1_state_func sensor_r pi (some (sensor_r, pi)) f1 f2 f3 f4 f5
        ob n) ∧
    ((env1_state_func sensor_r pi none f1 f2 f3 f4 f5 ob n).drop (n * 6) =
      [sensor_r, pi]) ∧
    (env0_step_state sensor_r pi none f1 f2 f3 ob n =
      env0_step_state sensor_r pi (some (sensor_r, pi)) f1 f2 f3 ob n) ∧
    ((env0_step_state sensor_r pi none f1 f2 f3 ob n).drop (n * 4) =
      [sensor_r, pi]) := by
  have h6 := target_blocks_length
    (fun i => [f1 i, f2 i, f3 i, f4 i, f5 i,
      if ob i then (1 : ℚ) else 0]) 6 (fun _ => rfl) 0 n
  have h4 := target_blocks_length
    (fun i => [f1 i, f2 i, f3 i, if ob i then (1 : ℚ) else 0]) 4
    (fun _ => rfl) 0 n
  refine ⟨rfl, ?_, rfl, ?_⟩
  · simp only [env1_state_func, resolve_obstacles]
    rw [← h6, List.drop_left]
  · simp only [env0_step_state, resolve_obstacles]
    rw [← h4, List.drop_left]

/-- Modelled from the spec: `util.transform_2d_inv`, the rigid-transform
composition of the Geometry/Frame Utilities leaf (the utility module is
not under src/).  It maps a vector given in a frame with heading cosine
`c` and sine `s` and origin `origin` to global coordinates. -/
def transform_2d_inv (vec : ℚ × ℚ) (c s : ℚ) (origin : ℚ × ℚ) : ℚ × ℚ :=
  (c * vec.1 - s * vec.2 + origin.1, s * vec.1 + c * vec.2 + origin.2)

/-- Squared Euclidean distance between two planar points. -/
def distSq (p q : ℚ × ℚ) : ℚ := (p.1 - q.1) ^ 2 + (p.2 - q.2) ^ 2

/-- Pair of uniform draws consumed by one `gen_rand_pose` call:
`u_ang` and `u_r` are the two `np.random.rand()` results. -/
structure Draw where
  u_ang : ℚ
  u_r : ℚ
deriving DecidableEq

/-- Embedding of `TargetTrackingEnv0.gen_rand_pose` (target_tracking.py
lines 138-160) for the calls made by `get_init_pose_random` (which pass no
`additional_frame`).  The trigonometric functions `rcos`/`rsin` (np.cos,
np.sin), the angle normalization `wrap` (`util.wrap_around`) and `pi`
(np.pi) are external and enter as parameters; the frame heading is `fth`.
Returns `(is_valid, pose)` where `is_valid` is the collision-freeness of
the transformed global point. -/
def gen_rand_pose (rcos rsin wrap : ℚ → ℚ) (pi : ℚ)
    (is_collision : ℚ × ℚ → Bool) (fxy : ℚ × ℚ) (fth : ℚ)
    (min_lin max_lin min_ang max_ang : ℚ) (d : Draw) : Bool × Pose2 :=
  let max_ang := if max_ang < min_ang then max_ang + 2 * pi else max_ang
  let rand_ang := wrap (d.u_ang * (max_ang - min_ang) + min_ang)
  let rand_r := d.u_r * (max_lin - min_lin) + min_lin
  let rand_xy := (rand_r * rcos rand_ang, rand_r * rsin rand_ang)
  let g := transform_2d_inv rand_xy (rcos fth) (rsin fth) fxy
  (!(is_collision g), ⟨g.1, g.2, rand_ang + fth⟩)

/-- Collaborators and random streams consumed by
`get_init_pose_random`: the external map queries, the metadata distance
ranges, the resolved `blocked` request, and the `np.random` draws as
explicit streams (`draws` feeds `gen_rand_pose`, `agent_draws` the agent
position candidates, `yaw_draws` the agent yaw). -/
structure SamplerCtx where
  rcos : ℚ → ℚ
  rsin : ℚ → ℚ
  wrap : ℚ → ℚ
  pi : ℚ
  is_collision : ℚ × ℚ → Bool
  is_blocked : ℚ × ℚ → ℚ × ℚ → Bool
  lin_a2b : ℚ × ℚ
  ang_a2b : ℚ × ℚ
  lin_b2t : ℚ × ℚ
  ang_b2t : ℚ × ℚ
  blocked : Bool
  draws : ℕ → Draw
  agent_draws : ℕ → ℚ × ℚ
  yaw_draws : ℕ → ℚ

/-- Embedding of the inner rejection loops of `get_init_pose_random`
(lines 190-202 for a belief, 205-218 for a target): repeatedly call
`gen_rand_pose` on the frame `(fxy, fth)`, compute the occlusion state of
the candidate against the agent position, and accept iff the candidate is
collision-free and its occlusion state equals the requested `blocked`.
`count` is the Python attempt counter; when it exceeds 100 the loop breaks
and invalidates the whole outer sample (`is_agent_valid = False`).
Returns `(is_valid, pose, agent_still_valid, next_draw_index)`. -/
def sample_pose_loop (ctx : SamplerCtx) (agent_xy fxy : ℚ × ℚ) (fth : ℚ)
    (lin ang : ℚ × ℚ) (k count : ℕ) : Bool × Pose2 × Bool × ℕ :=
  let r := gen_rand_pose ctx.rcos ctx.rsin ctx.wrap ctx.pi ctx.is_collision
    fxy fth lin.1 lin.2 ang.1 ang.2 (ctx.draws k)
  let isBlk := ctx.is_blocked agent_xy (r.2.x, r.2.y)
  let v := r.1 && (ctx.blocked == isBlk)
  if h : 100 < count + 1 then (v, r.2, false, k + 1)
  else if v then (v, r.2, true, k + 1)
  else sample_pose_loop ctx agent_xy fxy fth lin ang (k + 1) (count + 1)
termination_by 101 - count
decreasing_by simp_wf; omega

/-- Embedding of the per-target `for i in range(self.num_targets)` body of
`get_init_pose_random` (lines 189-219): sample a belief pose in the agent
frame, then (only if the belief was accepted, as the Python guard
`while (not is_target_valid) and is_belief_valid` does) a target pose in
the frame of that belief, occlusion-checked against the agent; a skipped target
loop leaves the zero pose, as `np.zeros` does.  The `ok` accumulator is
`is_agent_valid`, cleared by any inner-loop break and never set back
inside the loop.  Returns the belief list, target list, final
`is_agent_valid` and next draw index. -/
def targets_loop (ctx : SamplerCtx) (agent : Pose2) :
    ℕ → ℕ → Bool → List Pose2 × List Pose2 × Bool × ℕ
  | 0, k, ok => ([], [], ok, k)
  | m + 1, k, ok =>
    match sample_pose_loop ctx (agent.x, agent.y) (agent.x, agent.y)
      agent.th ctx.lin_a2b ctx.ang_a2b k 0 with
    | (bv, bp, bok, k1) =>
      match (if bv then
          sample_pose_loop ctx (agent.x, agent.y) (bp.x, bp.y) bp.th
            ctx.lin_b2t ctx.ang_b2t k1 0
        else (false, ⟨0, 0, 0⟩, true, k1)) with
      | (_, tp, tok, k2) =>
        match targets_loop ctx agent m k2 (ok && bok && tok) with
        | (bs, ts, ok2, k3) => (bp :: bs, tp :: ts, ok2, k3)

/-- Embedding of the agent-position rejection loop of
`get_init_pose_random` (lines 183-185), with explicit fuel for the
unbounded `while`: draw candidate positions until one is collision-free. -/
def agent_loop (ctx : SamplerCtx) : ℕ → ℕ → Option (ℚ × ℚ) × ℕ
  | 0, k => (none, k)
  | m + 1, k =>
    let a := ctx.agent_draws k
    if ctx.is_collision a then agent_loop ctx m (k + 1) else (some a, k + 1)

/-- Joint initial pose returned by the sampler. -/
structure InitPose where
  agent : Pose2
  belief_targets : List Pose2
  targets : List Pose2
deriving DecidableEq

/-- Embedding of `TargetTrackingEnv0.get_init_pose_random`
(target_tracking.py lines 162-220), the branch where the map has obstacle
data and `blocked` has been resolved (the source resolves a `None` request
with a coin flip before the loop).  `fuel` bounds the unbounded outer
`while (not is_agent_valid)` restart loop and `agent_fuel` the inner agent
rejection loop; a run that would loop longer returns `none`, and the
theorems speak about runs returning `some`. -/
def get_init_pose_random (ctx : SamplerCtx) (n agent_fuel : ℕ) :
    ℕ → ℕ → Option InitPose
  | 0, _ => none
  | fuel + 1, k =>
    match agent_loop ctx agent_fuel k with
    | (none, _) => none
    | (some axy, k1) =>
      match targets_loop ctx
        ⟨axy.1, axy.2, ctx.yaw_draws k1 * 2 * ctx.pi - ctx.pi⟩ n
        (k1 + 1) true with
      | (bs, ts, ok, k2) =>
        if ok then
          some ⟨⟨axy.1, axy.2, ctx.yaw_draws k1 * 2 * ctx.pi - ctx.pi⟩,
            bs, ts⟩
        else get_init_pose_random ctx n agent_fuel fuel k2

theorem transform_dist (c s ca sa r fx fy : ℚ) (h1 : c ^ 2 + s ^ 2 = 1)
    (h2 : ca ^ 2 + sa ^ 2 = 1) :
    distSq (c * (r * ca) - s * (r * sa) + fx, s * (r * ca) + c * (r * sa)
      + fy) (fx, fy) = r ^ 2 := by
  simp only [distSq]
  linear_combination (r ^ 2 * (ca ^ 2 + sa ^ 2)) * h1 + r ^ 2 * h2

/-- Accepted `gen_rand_pose` samples lie (in squared Euclidean distance)
within the requested linear window of the frame origin, both endpoints
included, provided the radius draw is a unit draw and the window is
sorted and nonnegative. -/
theorem gen_rand_pose_dist (rcos rsin wrap : ℚ → ℚ) (pi : ℚ)
    (is_collision : ℚ × ℚ → Bool) (fxy : ℚ × ℚ) (fth : ℚ)
    (min_lin max_lin min_ang max_ang : ℚ) (d : Draw)
    (hcs : ∀ x, rcos x ^ 2 + rsin x ^ 2 = 1) (h0 : 0 ≤ min_lin)
    (hmm : min_lin ≤ max_lin) (hu0 : 0 ≤ d.u_r) (hu1 : d.u_r ≤ 1) :
    min_lin ^ 2 ≤ distSq
      (((gen_rand_pose rcos rsin wrap pi is_collision fxy fth min_lin
        max_lin min_ang max_ang d).2).x,
       ((gen_rand_pose rcos rsin wrap pi is_collision fxy fth min_lin
        max_lin min_ang max_ang d).2).y) fxy ∧
    distSq
      (((gen_rand_pose rcos rsin wrap pi is_collision fxy fth min_lin
        max_lin min_ang max_ang d).2).x,
       ((gen_rand_pose rcos rsin wrap pi is_collision fxy fth min_lin
        max_lin min_ang max_ang d).2).y) fxy ≤ max_lin ^ 2 := by
  have key : distSq
      (((gen_rand_pose rcos rsin wrap pi is_collision fxy fth min_lin
        max_lin min_ang max_ang d).2).x,
       ((gen_rand_pose rcos rsin wrap pi is_collision fxy fth min_lin
        max_lin min_ang max_ang d).2).y) fxy =
      (d.u_r * (max_lin - min_lin) + min_lin) ^ 2 := by
    simp only [gen_rand_pose, transform_2d_inv]
    have h2 : (Prod.mk fxy.1 fxy.2) = fxy := rfl
    rw [← h2]
    exact transform_dist (rcos fth) (rsin fth) _ _ _ fxy.1 fxy.2
      (hcs fth) (hcs _)
  have hr1 : min_lin ≤ d.u_r * (max_lin - min_lin) + min_lin := by
    nlinarith [mul_nonneg hu0 (sub_nonneg.2 hmm)]
  have hr2 : d.u_r * (max_lin - min_lin) + min_lin ≤ max_lin := by
    nlinarith [mul_le_of_le_one_left (sub_nonneg.2 hmm) hu1]
  rw [key]
  exact ⟨pow_le_pow_left₀ h0 hr1 2,
    pow_le_pow_left₀ (le_trans h0 hr1) hr2 2⟩

theorem gen_rand_pose_valid_eq (rcos rsin wrap : ℚ → ℚ) (pi : ℚ)
    (is_collision : ℚ × ℚ → Bool) (fxy : ℚ × ℚ)
    (fth min_lin max_lin min_ang max_ang : ℚ) (d : Draw) :
    (gen_rand_pose rcos rsin wrap pi is_collision fxy fth min_lin max_lin
      min_ang max_ang d).1 =
    !(is_collision
      ((gen_rand_pose rcos rsin wrap pi is_collision fxy fth min_lin
        max_lin min_ang max_ang d).2.x,
       (gen_rand_pose rcos rsin wrap pi is_collision fxy fth min_lin
        max_lin min_ang max_ang d).2.y)) := rfl

/-- Invariant of the inner rejection loop: when it exits with
`is_agent_valid` still true, the sample was accepted (`is_valid = true`),
so the pose is collision-free, its occlusion state against the agent
equals the requested `blocked`, and it is the `gen_rand_pose` output of
one of the draws. -/
theorem sample_pose_loop_ok (ctx : SamplerCtx) (agent_xy fxy : ℚ × ℚ)
    (fth : ℚ) (lin ang : ℚ × ℚ) :
    ∀ n k count, 101 - count ≤ n → ∀ v p ok k2,
      sample_pose_loop ctx agent_xy fxy fth lin ang k count =
        (v, p, ok, k2) →
      ok = true →
      v = true ∧ ctx.is_collision (p.x, p.y) = false ∧
      ctx.is_blocked agent_xy (p.x, p.y) = ctx.blocked ∧
      ∃ j, p =
        (gen_rand_pose ctx.rcos ctx.rsin ctx.wrap ctx.pi ctx.is_collision
          fxy fth lin.1 lin.2 ang.1 ang.2 (ctx.draws j)).2 := by
  have accept : ∀ k v p ok k2,
      ((gen_rand_pose ctx.rcos ctx.rsin ctx.wrap ctx.pi ctx.is_collision
          fxy fth lin.1 lin.2 ang.1 ang.2 (ctx.draws k)).1 &&
        (ctx.blocked == ctx.is_blocked agent_xy
          ((gen_rand_pose ctx.rcos ctx.rsin ctx.wrap ctx.pi
            ctx.is_collision fxy fth lin.1 lin.2 ang.1 ang.2
            (ctx.draws k)).2.x,
           (gen_rand_pose ctx.rcos ctx.rsin ctx.wrap ctx.pi
            ctx.is_collision fxy fth lin.1 lin.2 ang.1 ang.2
            (ctx.draws k)).2.y))) = true →
      ((gen_rand_pose ctx.rcos ctx.rsin ctx.wrap ctx.pi ctx.is_collision
          fxy fth lin.1 lin.2 ang.1 ang.2 (ctx.draws k)).1 &&
        (ctx.blocked == ctx.is_blocked agent_xy
          ((gen_rand_pose ctx.rcos ctx.rsin ctx.wrap ctx.pi
            ctx.is_collision fxy fth lin.1 lin.2 ang.1 ang.2
            (ctx.draws k)).2.x,
           (gen_rand_pose ctx.rcos ctx.rsin ctx.wrap ctx.pi
            ctx.is_collision fxy fth lin.1 lin.2 ang.1 ang.2
            (ctx.draws k)).2.y)),
        (gen_rand_pose ctx.rcos ctx.rsin ctx.wrap ctx.pi ctx.is_collision
          fxy fth lin.1 lin.2 ang.1 ang.2 (ctx.draws k)).2, true, k + 1) =
        (v, p, ok, k2) →
      v = true ∧ ctx.is_collision (p.x, p.y) = false ∧
      ctx.is_blocked agent_xy (p.x, p.y) = ctx.blocked ∧
      ∃ j, p =
        (gen_rand_pose ctx.rcos ctx.rsin ctx.wrap ctx.pi ctx.is_collision
          fxy fth lin.1 lin.2 ang.1 ang.2 (ctx.draws j)).2 := by
    intro k v p ok k2 hv heq
    simp only [Prod.mk.injEq] at heq
    obtain ⟨hv1, hp, -, -⟩ := heq
    subst hv1 hp
    rw [Bool.and_eq_true, beq_iff_eq] at hv
    refine ⟨by simp [hv.1, hv.2], ?_, hv.2.symm, ⟨k, rfl⟩⟩
    have h1 := hv.1
    rw [gen_rand_pose_valid_eq, Bool.not_eq_eq_eq_not, Bool.not_true]
      at h1
    exact h1
  intro n
  induction n with
  | zero =>
    intro k count hc v p ok k2 heq hok
    rw [sample_pose_loop] at heq
    have h : 100 < count + 1 := by omega
    rw [dif_pos h] at heq
    simp only [Prod.mk.injEq] at heq
    obtain ⟨-, -, hko, -⟩ := heq
    simp [← hko] at hok
  | succ n ih =>
    intro k count hc v p ok k2 heq hok
    rw [sample_pose_loop] at heq
    by_cases h : 100 < count + 1
    · rw [dif_pos h] at heq
      simp only [Prod.mk.injEq] at heq
      obtain ⟨-, -, hko, -⟩ := heq
      simp [← hko] at hok
    · rw [dif_neg h] at heq
      by_cases hv : ((gen_rand_pose ctx.rcos ctx.rsin ctx.wrap ctx.pi
          ctx.is_collision fxy fth lin.1 lin.2 ang.1 ang.2
          (ctx.draws k)).1 &&
        (ctx.blocked == ctx.is_blocked agent_xy
          ((gen_rand_pose ctx.rcos ctx.rsin ctx.wrap ctx.pi
            ctx.is_collision fxy fth lin.1 lin.2 ang.1 ang.2
            (ctx.draws k)).2.x,
           (gen_rand_pose ctx.rcos ctx.rsin ctx.wrap ctx.pi
            ctx.is_collision fxy fth lin.1 lin.2 ang.1 ang.2
            (ctx.draws k)).2.y))) = true
      · rw [if_pos hv] at heq
        exact accept k v p ok k2 hv heq
      · rw [Bool.not_eq_true] at hv
        rw [hv] at heq
        simp only [Bool.false_eq_true, if_false] at heq
        exact ih (k + 1) (count + 1) (by omega) v p ok k2 heq hok

/-- Facts holding of each accepted (belief, target) pose pair in a
returned joint sample: both are collision-free, both have the requested
occlusion state relative to the agent, the belief was produced by
`gen_rand_pose` in the agent frame with the agent-to-belief ranges, and
the target by `gen_rand_pose` in the frame of that belief with the
belief-to-target ranges. -/
def accepted_pair (ctx : SamplerCtx) (agent bp tp : Pose2) : Prop :=
  ctx.is_collision (bp.x, bp.y) = false ∧
  ctx.is_blocked (agent.x, agent.y) (bp.x, bp.y) = ctx.blocked ∧
  ctx.is_collision (tp.x, tp.y) = false ∧
  ctx.is_blocked (agent.x, agent.y) (tp.x, tp.y) = ctx.blocked ∧
  (∃ i, bp = (gen_rand_pose ctx.rcos ctx.rsin ctx.wrap ctx.pi
    ctx.is_collision (agent.x, agent.y) agent.th ctx.lin_a2b.1
    ctx.lin_a2b.2 ctx.ang_a2b.1 ctx.ang_a2b.2 (ctx.draws i)).2) ∧
  (∃ i, tp = (gen_rand_pose ctx.rcos ctx.rsin ctx.wrap ctx.pi
    ctx.is_collision (bp.x, bp.y) bp.th ctx.lin_b2t.1 ctx.lin_b2t.2
    ctx.ang_b2t.1 ctx.ang_b2t.2 (ctx.draws i)).2)

/-- Invariant of the per-target loop: if it finishes with
`is_agent_valid = true` then it entered with `is_agent_valid = true`, the
two pose lists have one entry per target, and every indexed pair was
accepted. -/
theorem targets_loop_ok (ctx : SamplerCtx) (agent : Pose2) :
    ∀ m k ok bs ts ok2 k2,
      targets_loop ctx agent m k ok = (bs, ts, ok2, k2) → ok2 = true →
      ok = true ∧ bs.length = m ∧ ts.length = m ∧
      ∀ j bp tp, bs.get? j = some bp → ts.get? j = some tp →
        accepted_pair ctx agent bp tp := by
  intro m
  induction m with
  | zero =>
    intro k ok bs ts ok2 k2 heq hok
    simp only [targets_loop, Prod.mk.injEq] at heq
    obtain ⟨h1, h2, h3, -⟩ := heq
    subst h1 h2 h3
    exact ⟨hok, rfl, rfl, by intro j bp tp hbp _; simp at hbp⟩
  | succ m ih =>
    intro k ok bs ts ok2 k2 heq hok
    rcases hb : sample_pose_loop ctx (agent.x, agent.y) (agent.x, agent.y)
      agent.th ctx.lin_a2b ctx.ang_a2b k 0 with ⟨bv, bp, bok, k1⟩
    simp only [targets_loop] at heq
    rw [hb] at heq
    by_cases hbv : bv = true
    · rw [hbv] at heq
      simp only [if_true] at heq
      rcases ht : sample_pose_loop ctx (agent.x, agent.y) (bp.x, bp.y)
        bp.th ctx.lin_b2t ctx.ang_b2t k1 0 with ⟨tv, tp, tok, kt⟩
      rw [ht] at heq
      rcases hrest : targets_loop ctx agent m kt (ok && bok && tok) with
        ⟨bs', ts', okr, k3⟩
      rw [hrest] at heq
      simp only [Prod.mk.injEq] at heq
      obtain ⟨h1, h2, h3, -⟩ := heq
      subst h1 h2 h3
      have hIH := ih kt (ok && bok && tok) bs' ts' okr k3 hrest hok
      have hflags : ok = true ∧ bok = true ∧ tok = true := by
        have := hIH.1
        simp only [Bool.and_eq_true] at this
        exact ⟨this.1.1, this.1.2, this.2⟩
      have hbspec := sample_pose_loop_ok ctx (agent.x, agent.y)
        (agent.x, agent.y) agent.th ctx.lin_a2b ctx.ang_a2b 101 k 0
        (by omega) bv bp bok k1 hb hflags.2.1
      have htspec := sample_pose_loop_ok ctx (agent.x, agent.y)
        (bp.x, bp.y) bp.th ctx.lin_b2t ctx.ang_b2t 101 k1 0 (by omega)
        tv tp tok kt ht hflags.2.2
      refine ⟨hflags.1, by simp [hIH.2.1], by simp [hIH.2.2.1], ?_⟩
      intro j b t hbj htj
      cases j with
      | zero =>
        simp only [List.get?_cons_zero, Option.some.injEq] at hbj htj
        subst hbj htj
        exact ⟨hbspec.2.1, hbspec.2.2.1, htspec.2.1, htspec.2.2.1,
          hbspec.2.2.2, htspec.2.2.2⟩
      | succ j =>
        simp only [List.get?_cons_succ] at hbj htj
        exact hIH.2.2.2 j b t hbj htj
    · rw [Bool.not_eq_true] at hbv
      rw [hbv] at heq
      simp only [Bool.false_eq_true, if_false] at heq
      rcases hrest : targets_loop ctx agent m k1 (ok && bok && true) with
        ⟨bs', ts', okr, k3⟩
      rw [hrest] at heq
      simp only [Prod.mk.injEq] at heq
      obtain ⟨-, -, h3, -⟩ := heq
      subst h3
      have hIH := ih k1 (ok && bok && true) bs' ts' okr k3 hrest hok
      have hbok : bok = true := by
        have := hIH.1
        simp only [Bool.and_eq_true] at this
        exact this.1.2
      have hbspec := sample_pose_loop_ok ctx (agent.x, agent.y)
        (agent.x, agent.y) agent.th ctx.lin_a2b ctx.ang_a2b 101 k 0
        (by omega) bv bp bok k1 hb hbok
      rw [hbspec.1] at hbv
      cases hbv

/-- Invariant of the outer restart loop: any `some` result consists of one
accepted pose pair per target, evaluated against the returned agent
pose. -/
theorem get_init_pose_random_ok (ctx : SamplerCtx) (n agent_fuel : ℕ) :
    ∀ fuel k ip, get_init_pose_random ctx n agent_fuel fuel k = some ip →
      ip.belief_targets.length = n ∧ ip.targets.length = n ∧
      ∀ j bp tp, ip.belief_targets.get? j = some bp →
        ip.targets.get? j = some tp → accepted_pair ctx ip.agent bp tp := by
  intro fuel
  induction fuel with
  | zero => intro k ip heq; simp [get_init_pose_random] at heq
  | succ fuel ih =>
    intro k ip heq
    simp only [get_init_pose_random] at heq
    rcases ha : agent_loop ctx agent_fuel k with ⟨aopt, k1⟩
    rw [ha] at heq
    cases aopt with
    | none => simp at heq
    | some axy =>
      dsimp only at heq
      rcases hr : targets_loop ctx
        ⟨axy.1, axy.2, ctx.yaw_draws k1 * 2 * ctx.pi - ctx.pi⟩ n
        (k1 + 1) true with ⟨bs, ts, okr, k2⟩
      rw [hr] at heq
      dsimp only at heq
      by_cases hok : okr = true
      · rw [hok] at heq
        simp only [if_true, Option.some.injEq] at heq
        subst heq
        have := targets_loop_ok ctx
          ⟨axy.1, axy.2, ctx.yaw_draws k1 * 2 * ctx.pi - ctx.pi⟩ n
          (k1 + 1) true bs ts okr k2 hr hok
        exact ⟨this.2.1, this.2.2.1, this.2.2.2⟩
      · rw [Bool.not_eq_true] at hok
        rw [hok] at heq
        simp only [Bool.false_eq_true, if_false] at heq
        exact ih k2 ip heq

/-- C5: every joint initial pose returned by `get_init_pose_random`
satisfies the requested occlusion configuration — for each target index,
the agent-belief segment and the agent-target segment both have
`is_blocked` equal to the requested `blocked` flag — and every accepted
belief and target position is collision-free on the map. -/
theorem get_init_pose_random_occlusion (ctx : SamplerCtx)
    (n agent_fuel fuel k : ℕ) (ip : InitPose)
    (h : get_init_pose_random ctx n agent_fuel fuel k = some ip)
    (j : ℕ) (hj : j < n) :
    ∃ bp tp, ip.belief_targets.get? j = some bp ∧
      ip.targets.get? j = some tp ∧
      ctx.is_collision (bp.x, bp.y) = false ∧
      ctx.is_collision (tp.x, tp.y) = false ∧
      ctx.is_blocked (ip.agent.x, ip.agent.y) (bp.x, bp.y) =
        ctx.blocked ∧
      ctx.is_blocked (ip.agent.x, ip.agent.y) (tp.x, tp.y) =
        ctx.blocked := by
  obtain ⟨hlb, hlt, hprop⟩ :=
    get_init_pose_random_ok ctx n agent_fuel fuel k ip h
  cases hbg : ip.belief_targets.get? j with
  | none =>
    rw [List.get?_eq_none] at hbg
    omega
  | some bp =>
    cases htg : ip.targets.get? j with
    | none =>
      rw [List.get?_eq_none] at htg
      omega
    | some tp =>
      have hp := hprop j bp tp hbg htg
      exact ⟨bp, tp, rfl, rfl, hp.1, hp.2.2.1, hp.2.1, hp.2.2.2.1⟩

/-- C6: in every joint initial pose returned by `get_init_pose_random`,
each belief position lies (in squared Euclidean distance) within the
requested agent-to-belief linear range of the agent position, endpoints
included, and each target position within the requested belief-to-target
linear range of its paired belief position, endpoints included — given
that the radius draws are unit draws, the trigonometric collaborators
satisfy the Pythagorean identity, and the ranges are sorted and
nonnegative. -/
theorem get_init_pose_random_distance (ctx : SamplerCtx)
    (n agent_fuel fuel k : ℕ) (ip : InitPose)
    (hcs : ∀ x, ctx.rcos x ^ 2 + ctx.rsin x ^ 2 = 1)
    (hdraw : ∀ i, 0 ≤ (ctx.draws i).u_r ∧ (ctx.draws i).u_r ≤ 1)
    (ha2b0 : 0 ≤ ctx.lin_a2b.1) (ha2b : ctx.lin_a2b.1 ≤ ctx.lin_a2b.2)
    (hb2t0 : 0 ≤ ctx.lin_b2t.1) (hb2t : ctx.lin_b2t.1 ≤ ctx.lin_b2t.2)
    (h : get_init_pose_random ctx n agent_fuel fuel k = some ip)
    (j : ℕ) (hj : j < n) :
    ∃ bp tp, ip.belief_targets.get? j = some bp ∧
      ip.targets.get? j = some tp ∧
      ctx.lin_a2b.1 ^ 2 ≤ distSq (bp.x, bp.y) (ip.agent.x, ip.agent.y) ∧
      distSq (bp.x, bp.y) (ip.agent.x, ip.agent.y) ≤ ctx.lin_a2b.2 ^ 2 ∧
      ctx.lin_b2t.1 ^ 2 ≤ distSq (tp.x, tp.y) (bp.x, bp.y) ∧
      distSq (tp.x, tp.y) (bp.x, bp.y) ≤ ctx.lin_b2t.2 ^ 2 := by
  obtain ⟨hlb, hlt, hprop⟩ :=
    get_init_pose_random_ok ctx n agent_fuel fuel k ip h
  cases hbg : ip.belief_targets.get? j with
  | none =>
    rw [List.get?_eq_none] at hbg
    omega
  | some bp =>
    cases htg : ip.targets.get? j with
    | none =>
      rw [List.get?_eq_none] at htg
      omega
    | some tp =>
      have hp := hprop j bp tp hbg htg
      obtain ⟨ib, hib⟩ := hp.2.2.2.2.1
      obtain ⟨it, hit⟩ := hp.2.2.2.2.2
      have hbd := gen_rand_pose_dist ctx.rcos ctx.rsin ctx.wrap ctx.pi
        ctx.is_collision (ip.agent.x, ip.agent.y) ip.agent.th
        ctx.lin_a2b.1 ctx.lin_a2b.2 ctx.ang_a2b.1 ctx.ang_a2b.2
        (ctx.draws ib) hcs ha2b0 ha2b (hdraw ib).1 (hdraw ib).2
      have htd := gen_rand_pose_dist ctx.rcos ctx.rsin ctx.wrap ctx.pi
        ctx.is_collision (bp.x, bp.y) bp.th ctx.lin_b2t.1 ctx.lin_b2t.2
        ctx.ang_b2t.1 ctx.ang_b2t.2 (ctx.draws it) hcs hb2t0 hb2t
        (hdraw it).1 (hdraw it).2
      rw [← hib] at hbd
      rw [← hit] at htd
      exact ⟨bp, tp, rfl, rfl, hbd.1, hbd.2, htd.1, htd.2⟩

/-- Concrete sampler instance used to evaluate the sampler on one run:
an obstacle-free map (nothing collides, nothing blocks, `blocked = False`
as the map-less branch forces), degenerate distance windows `[0, 0]`, and
all-zero random draws with `cos = 1`, `sin = 0`. -/
def ctx0 : SamplerCtx :=
  ⟨fun _ => 1, fun _ => 0, id, 0, fun _ => false, fun _ _ => false,
    (0, 0), (0, 0), (0, 0), (0, 0), false, fun _ => ⟨0, 0⟩,
    fun _ => (0, 0), fun _ => 0⟩

theorem ctx0_run : get_init_pose_random ctx0 1 1 1 0 =
    some ⟨⟨0, 0, 0⟩, [⟨0, 0, 0⟩], [⟨0, 0, 0⟩]⟩ := by
  simp [get_init_pose_random, agent_loop, targets_loop, sample_pose_loop,
    gen_rand_pose, transform_2d_inv, ctx0]

/-- Closed instance of `get_init_pose_random_occlusion` on the `ctx0`
run. -/
theorem get_init_pose_random_occlusion_witness :
    ∃ bp tp, ([⟨0, 0, 0⟩] : List Pose2).get? 0 = some bp ∧
      ([⟨0, 0, 0⟩] : List Pose2).get? 0 = some tp ∧
      ctx0.is_collision (bp.x, bp.y) = false ∧
      ctx0.is_collision (tp.x, tp.y) = false ∧
      ctx0.is_blocked (0, 0) (bp.x, bp.y) = ctx0.blocked ∧
      ctx0.is_blocked (0, 0) (tp.x, tp.y) = ctx0.blocked :=
  get_init_pose_random_occlusion ctx0 1 1 1 0
    ⟨⟨0, 0, 0⟩, [⟨0, 0, 0⟩], [⟨0, 0, 0⟩]⟩ ctx0_run 0 Nat.one_pos

/-- Closed instance of `get_init_pose_random_distance` on the `ctx0`
run. -/
theorem get_init_pose_random_distance_witness :
    ∃ bp tp, ([⟨0, 0, 0⟩] : List Pose2).get? 0 = some bp ∧
      ([⟨0, 0, 0⟩] : List Pose2).get? 0 = some tp ∧
      ctx0.lin_a2b.1 ^ 2 ≤ distSq (bp.x, bp.y) (0, 0) ∧
      distSq (bp.x, bp.y) (0, 0) ≤ ctx0.lin_a2b.2 ^ 2 ∧
      ctx0.lin_b2t.1 ^ 2 ≤ distSq (tp.x, tp.y) (bp.x, bp.y) ∧
      distSq (tp.x, tp.y) (bp.x, bp.y) ≤ ctx0.lin_b2t.2 ^ 2 :=
  get_init_pose_random_distance ctx0 1 1 1 0
    ⟨⟨0, 0, 0⟩, [⟨0, 0, 0⟩], [⟨0, 0, 0⟩]⟩
    (fun x => by norm_num [ctx0]) (fun i => by norm_num [ctx0])
    (by norm_num [ctx0]) (by norm_num [ctx0]) (by norm_num [ctx0])
    (by norm_num [ctx0]) ctx0_run 0 Nat.one_pos

end Ttenv
